import Mathlib

/-!
Verification of the hlandau/portmap port-mapping library.

This file gives a shallow embedding, in Lean, of the parts of the
repository that its specification makes claims about:

* the backoff clock used by the NAT-PMP single-transaction layer
  (`Backoff`, `natpmpBackoff`);
* the NAT-PMP single-transaction client `makeRequest` and the derived
  operations `GetExternalAddr` and `Map` (package `natpmp`);
* the SSDP registry query `GetServicesByType` (package `ssdp`);
* the mapping object (`MState`), its observers `ExternalAddr` and
  `Delete` (package `portmap`);
* the mapping controller `portMappingLoop`, embedded as a small-step
  transition relation `Step` over controller states, with the protocol
  backends abstracted into per-call outcome oracles but the controller's
  own control flow and state updates translated statement by statement;
* the control-flow skeleton of the UPnP operations `Map`, `Unmap` and
  `GetExternalAddr` (package `upnp`), with nil-pointer dereference made
  explicit as a `crash` result.

Machine integers are modelled as `Nat` (none of the verified paths
overflow-sensitive arithmetic); Go `time.Time` zero values are modelled
with `Option`; byte slices are `List Nat`.
-/

namespace Portmap

deriving instance DecidableEq for Except

/-! ## Backoff clock

Modelled from the spec: the `Reset` / `NextDelay` contract of the
`denet.Backoff` structure (package `github.com/hlandau/degoutils/net`,
which is not part of this repository's sources).  Per the spec,
successive delays are `D_i = min(D0 * 2 ^ min(i, k), Dmax)` for `i < N`,
the sequence yields the zero sentinel at `i = N`, and `Reset` returns
`i` to 0; a zero `maxTries` means no limit.  Delays are in
milliseconds. -/
structure Backoff where
  maxTries : Nat
  initialDelay : Nat
  maxDelay : Nat
  maxDelayAfterTries : Nat
  currentTry : Nat
deriving DecidableEq, Repr

/-- Modelled from the spec: `Reset` returns the try counter to 0. -/
def Backoff.reset (b : Backoff) : Backoff :=
  { b with currentTry := 0 }

/-- Modelled from the spec: `NextDelay` yields the truncated-doubling
delay for the current try and advances the counter, or yields the zero
sentinel once `maxTries` (when nonzero) tries have been consumed. -/
def Backoff.nextDelay (b : Backoff) : Nat × Backoff :=
  if b.maxTries ≠ 0 ∧ b.maxTries ≤ b.currentTry then
    (0, b)
  else
    (min (b.initialDelay * 2 ^ (min b.currentTry b.maxDelayAfterTries)) b.maxDelay,
     { b with currentTry := b.currentTry + 1 })

/-- The list of the first `n` values produced by repeated `nextDelay`. -/
def Backoff.delays (b : Backoff) : Nat → List Nat
  | 0 => []
  | n + 1 =>
    let p := b.nextDelay
    p.1 :: p.2.delays n

/-- The package-level `backoff` variable of package `natpmp`:
`MaxTries: 9, InitialDelay: 250ms, MaxDelay: 64000ms,
MaxDelayAfterTries: 8`. -/
def natpmpBackoff : Backoff :=
  { maxTries := 9
    initialDelay := 250
    maxDelay := 64000
    maxDelayAfterTries := 8
    currentTry := 0 }

/-! ## NAT-PMP single-transaction client (package `natpmp`) -/

/-- The port which listens on the gateway (`hostToGatewayPort`). -/
def hostToGatewayPort : Nat := 5351

/-- A UDP source address, as reported for a received datagram. -/
structure Addr where
  ip : Nat
  port : Nat
deriving DecidableEq, Repr

/-- One result of a `ReadDatagramFromUDP` call inside `makeRequest`:
the read times out, fails with a non-timeout I/O error, or yields a
datagram with a source address and a byte payload. -/
inductive RecvEv where
  | timeout
  | ioError
  | datagram (src : Addr) (data : List Nat)
deriving DecidableEq, Repr

/-- Errors surfaced by the embedded NAT-PMP layer.  `outOfEvents` is an
artifact of the embedding: it marks a run that would read more datagrams
than the supplied oracle list provides, and never occurs in the
theorems below. -/
inductive MRErr where
  | timeout
  | ioError
  | gatewayError (code : Nat)
  | shortResponse
  | outOfEvents
deriving DecidableEq, Repr

/-- Bookkeeping observed along one `makeRequest` run: the backoff
structure (`rconf`), how many datagrams were sent, how many times
`NextDelay` was called, and the sequence of per-attempt deadline
durations that were installed on the socket. -/
structure MRState where
  b : Backoff
  sends : Nat
  delayCalls : Nat
  deadlines : List Nat
deriving DecidableEq, Repr

/-- Bookkeeping shared by every loop iteration of `makeRequest`: one
`NextDelay` call, and — when the delay is nonzero — one socket deadline
installation and one send of the request datagram. -/
def attemptStart (st : MRState) : MRState :=
  let p := st.b.nextDelay
  let st1 : MRState := { st with b := p.2, delayCalls := st.delayCalls + 1 }
  if p.1 = 0 then st1
  else { st1 with sends := st1.sends + 1, deadlines := st1.deadlines ++ [p.1] }

/-- The retry loop of `makeRequest`: each iteration calls
`rconf.NextDelay()` (zero means the tries are exhausted and the
transaction fails with timeout), sets the socket deadline to that
duration, re-sends the request datagram and reads one datagram.
Timeouts and discarded datagrams `continue` to the top of the loop.
A datagram is discarded when its source is not `(gateway, 5351)`, it is
shorter than 4 bytes, its version byte is not 0, or its opcode byte is
not `0x80 ||| opcode`.  Otherwise the result code (bytes 2..3,
big-endian) is checked and the payload after the 4-byte header is
returned. -/
def makeRequestLoop (gw : Nat) (opcode : Nat) :
    List RecvEv → MRState → Except MRErr (List Nat) × MRState
  | [], st =>
    if (st.b.nextDelay).1 = 0 then
      (Except.error MRErr.timeout, attemptStart st)
    else
      (Except.error MRErr.outOfEvents, attemptStart st)
  | ev :: rest, st =>
    if (st.b.nextDelay).1 = 0 then
      (Except.error MRErr.timeout, attemptStart st)
    else
      let st2 := attemptStart st
      match ev with
      | RecvEv.timeout => makeRequestLoop gw opcode rest st2
      | RecvEv.ioError => (Except.error MRErr.ioError, st2)
      | RecvEv.datagram src data =>
        if src.ip ≠ gw ∨ src.port ≠ hostToGatewayPort then
          makeRequestLoop gw opcode rest st2
        else if data.length < 4 then
          makeRequestLoop gw opcode rest st2
        else if data.getD 0 0 ≠ 0 ∨ data.getD 1 0 ≠ (128 ||| opcode) then
          makeRequestLoop gw opcode rest st2
        else
          let rc := data.getD 2 0 * 256 + data.getD 3 0
          if rc ≠ 0 then
            (Except.error (MRErr.gatewayError rc), st2)
          else
            (Except.ok (data.drop 4), st2)

/-- `makeRequest`: copies the package-level backoff structure, resets
it, and runs the retry loop. -/
def makeRequest (gw : Nat) (opcode : Nat) (evs : List RecvEv) :
    Except MRErr (List Nat) × MRState :=
  makeRequestLoop gw opcode evs
    { b := natpmpBackoff.reset, sends := 0, delayCalls := 0, deadlines := [] }

/-- Result of a derived NAT-PMP operation in a total embedding.
`sliceOutOfRange` marks evaluation of a Go slice expression whose bounds
exceed the slice's length: in Go this either panics or (when the
underlying buffer's capacity suffices) silently yields stale buffer
bytes; in neither case is an error value returned. -/
inductive NPResult (α : Type) where
  | ok (a : α)
  | err (e : MRErr)
  | sliceOutOfRange
deriving DecidableEq, Repr

/-- `GetExternalAddr`: opcode 0, empty request payload; on wire success
evaluates `r[4:8]` of the response payload with no length check. -/
def natpmpGetExternalAddr (gw : Nat) (evs : List RecvEv) :
    NPResult (List Nat) × MRState :=
  let p := makeRequest gw 0 evs
  match p.1 with
  | Except.error e => (NPResult.err e, p.2)
  | Except.ok r =>
    if 8 ≤ r.length then (NPResult.ok ((r.drop 4).take 4), p.2)
    else (NPResult.sliceOutOfRange, p.2)

/-- The response-parsing tail of `natpmp.Map`: a payload shorter than
12 bytes fails with the short-response error; otherwise the external
port is bytes 6..8 (big-endian) and the lifetime is bytes 8..12. -/
def natpmpMapParse (r : List Nat) : Except MRErr (Nat × Nat) :=
  if r.length < 12 then
    Except.error MRErr.shortResponse
  else
    Except.ok
      (r.getD 6 0 * 256 + r.getD 7 0,
       ((r.getD 8 0 * 256 + r.getD 9 0) * 256 + r.getD 10 0) * 256 + r.getD 11 0)

/-- `natpmp.Map` for a supported protocol: runs the transaction with
the protocol's opcode and parses the response payload. -/
def natpmpMap (gw : Nat) (opcode : Nat) (evs : List RecvEv) :
    Except MRErr (Nat × Nat) × MRState :=
  let p := makeRequest gw opcode evs
  match p.1 with
  | Except.error e => (Except.error e, p.2)
  | Except.ok r => (natpmpMapParse r, p.2)

/-! ## SSDP registry (packages `ssdp`, `ssdp/ssdpbase`) -/

/-- `ssdpbase.BroadcastInterval`, in seconds. -/
def broadcastInterval : Int := 60

/-- A service discovered by SSDP (the registry's stored tuple). -/
structure Service where
  usn : String
  st : String
  location : String
  lastSeen : Int
deriving DecidableEq, Repr

/-- `ssdp.GetServicesByType`: returns the registry entries whose ST
matches and whose `LastSeen` is strictly after
`now - 3 * BroadcastInterval`.  The registry map's values are modelled
as a list. -/
def GetServicesByType (reg : List Service) (st : String) (now : Int) :
    List Service :=
  reg.filter (fun v => v.st == st && decide (now - 3 * broadcastInterval < v.lastSeen))

/-! ## The mapping object (package `portmap`, type `mapping`)

Time for the mapping and its controller is a `Nat` (abstract ticks,
monotonically increasing).  Go's zero `time.Time` is `none`. -/

/-- The mutex-protected fields of the `mapping` struct, together with
the mapping's slice of `cfg` that the controller mutates
(`ExternalPort`, `Lifetime`) and the controller's cross-attempt backoff
(`cfg.Backoff`).  `notifyPending` models the single-slot `notifyChan`
holding an unconsumed signal; `closeCount` counts `close(abortChan)`
calls (closing an already-closed Go channel would panic, so `Delete`
guards it with the `aborted` flag). -/
structure MState where
  externalPort : Nat
  lifetime : Nat
  expireTime : Option Nat
  aborted : Bool
  externalAddr : String
  prevValue : String
  notifyPending : Bool
  backoff : Backoff
  closeCount : Nat
deriving DecidableEq, Repr

/-- `mapping.isActive`: the expiry time is set and strictly in the
future. -/
def isActive (m : MState) (now : Nat) : Bool :=
  match m.expireTime with
  | none => false
  | some t => decide (now < t)

/-- `net.JoinHostPort`: brackets the host when it contains a colon or a
percent sign (the containment test is phrased over the character list
so that it evaluates structurally). -/
def joinHostPort (host : String) (port : String) : String :=
  if host.data.contains ':' || host.data.contains '%' then
    "[" ++ host ++ "]:" ++ port
  else
    host ++ ":" ++ port

/-- `mapping.ExternalAddr`: the empty string when the mapping is not
active or its external port is 0, else `JoinHostPort` of the recorded
external address and the decimal external port. -/
def ExternalAddr (m : MState) (now : Nat) : String :=
  if !isActive m now || m.externalPort == 0 then ""
  else joinHostPort m.externalAddr (Nat.repr m.externalPort)

/-- `mapping.Delete`: a no-op when already aborted; otherwise closes
`abortChan` and sets the `aborted` flag. -/
def deleteOp (m : MState) : MState :=
  if m.aborted then m
  else { m with aborted := true, closeCount := m.closeCount + 1 }

/-- `mapping.notify`: recomputes `ExternalAddr`; when it differs from
the previously-notified value, records it and attempts a non-blocking
send on the single-slot channel (the slot simply stays full if the
previous signal is unconsumed). -/
def notifyUpd (m : MState) (now : Nat) : MState :=
  let ea := ExternalAddr m now
  if m.prevValue = ea then m
  else { m with prevValue := ea, notifyPending := true }

/-- `mapping.setInactive`: clears the expiry time and calls `notify`. -/
def setInactive (m : MState) (now : Nat) : MState :=
  notifyUpd { m with expireTime := none } now

/-! ## Protocol backend attempts
(`tryNATPMPGW`, `tryNATPMP`, `tryUPnPSvc`, `tryUPnP`)

The wire calls (`natpmp.Map`, `natpmp.GetExternalAddr`, `upnp.Map`,
`upnp.Unmap`, `upnp.GetExternalAddr`) are abstracted into per-call
outcome oracles; everything the controller itself does with the results
is translated statement by statement. -/

/-- Outcome of one gateway's NAT-PMP exchange inside `tryNATPMPGW`:
either `natpmp.Map` fails, or it succeeds returning an external port
and an actual lifetime, with `extIP` the result of the follow-up
`natpmp.GetExternalAddr` (`none` when that call fails). -/
inductive NatGwOutcome where
  | mapFail
  | mapOk (extPort : Nat) (actualLifetime : Nat) (extIP : Option String)
deriving DecidableEq, Repr

/-- `mapping.tryNATPMPGW` for one gateway.  When destroying an already
inactive mapping it is a no-op success.  The preferred lifetime is 0
when destroying, else `cfg.Lifetime`.  On `natpmp.Map` success the
returned port and lifetime overwrite the config; with preferred
lifetime 0 the teardown is complete; otherwise the external address is
refreshed when `natpmp.GetExternalAddr` succeeds and the expiry is set
to now plus the actual lifetime. -/
def tryNATPMPGW (destroy : Bool) (now : Nat) (m : MState) (o : NatGwOutcome) :
    Bool × MState :=
  if destroy ∧ isActive m now = false then
    (true, m)
  else
    let preferredLifetime := if destroy then 0 else m.lifetime
    match o with
    | NatGwOutcome.mapFail => (false, m)
    | NatGwOutcome.mapOk extPort actualLifetime extIP =>
      let m1 := { m with externalPort := extPort, lifetime := actualLifetime }
      if preferredLifetime = 0 then
        (true, m1)
      else
        let m2 :=
          match extIP with
          | some s => { m1 with externalAddr := s }
          | none => m1
        (true, { m2 with expireTime := some (now + actualLifetime) })

/-- `mapping.tryNATPMP`: tries each gateway in order, stopping at the
first success; returns false only when every gateway failed. -/
def tryNATPMP (destroy : Bool) (now : Nat) : List NatGwOutcome → MState → Bool × MState
  | [], m => (false, m)
  | o :: os, m =>
    let p := tryNATPMPGW destroy now m o
    if p.1 then p else tryNATPMP destroy now os p.2

/-- Outcome of one service's UPnP exchange inside `tryUPnPSvc`: `ok` is
whether the `upnp.Map` (or, when destroying, `upnp.Unmap`) call
succeeded; on a successful `upnp.Map`, `extPort` is the returned actual
external port and `extIP` the result of the follow-up
`upnp.GetExternalAddr` (`none` when it fails). -/
structure UpnpOutcome where
  ok : Bool
  extPort : Nat
  extIP : Option String
deriving DecidableEq, Repr

/-- `mapping.tryUPnPSvc` for one service.  Destroying an inactive
mapping is a no-op success; otherwise destroy issues one
`upnp.Unmap` whose success is the result.  A mapping attempt records
expiry = now + requested lifetime and the returned external port, then
refreshes the external address when `upnp.GetExternalAddr` succeeds
(its failure does not invalidate the mapping). -/
def tryUPnPSvc (destroy : Bool) (now : Nat) (m : MState) (o : UpnpOutcome) :
    Bool × MState :=
  if destroy then
    if isActive m now = false then (true, m)
    else (o.ok, m)
  else
    if o.ok = false then (false, m)
    else
      let m1 := { m with expireTime := some (now + m.lifetime), externalPort := o.extPort }
      let m2 :=
        match o.extIP with
        | some s => { m1 with externalAddr := s }
        | none => m1
      (true, m2)

/-- `mapping.tryUPnP`: tries each known service in order, stopping at
the first success. -/
def tryUPnP (destroy : Bool) (now : Nat) : List UpnpOutcome → MState → Bool × MState
  | [], m => (false, m)
  | o :: os, m =>
    let p := tryUPnPSvc destroy now m o
    if p.1 then p else tryUPnP destroy now os p.2

/-! ## The mapping controller (`mapping.portMappingLoop`)

The loop body is split at its suspension and decision points into a
small-step transition relation.  Program counter values:

* `top`: about to run the top-of-loop abort check and the mode switch
  dispatch;
* `attemptNat` / `attemptUpnp`: a backend attempt is in flight;
* `postCheck`: the attempt returned; about to run the
  tearing-down check, the backoff update and `notify`;
* `selectWait`: blocked in the `select` on `abortChan` / `time.After(d)`;
* `dead`: `portMappingLoop` has returned.

Environment steps (`tick`, `del`) model time passing and concurrent
`Delete()` calls; they can interleave anywhere, in particular while an
attempt is in flight. -/

/-- The renewal interval used after a successful UPnP attempt
(`1 * time.Hour`), in seconds. -/
def oneHour : Nat := 3600

/-- The controller's `mode` local variable. -/
inductive Mode where
  | natpmp
  | upnp
deriving DecidableEq, Repr

/-- Program counter of the controller task. -/
inductive Pc where
  | top
  | attemptNat
  | attemptUpnp
  | postCheck
  | selectWait
  | dead
deriving DecidableEq, Repr

/-- A controller state: the shared mapping object `m`, the current time
`now`, and the loop's locals `aborting`, `mode`, `ok`, `d`. -/
structure CState where
  m : MState
  now : Nat
  pc : Pc
  aborting : Bool
  mode : Mode
  ok : Bool
  d : Nat
deriving DecidableEq, Repr

/-- Time advances. -/
def tickStep (s : CState) (t : Nat) : CState :=
  { s with now := t }

/-- A concurrent `Delete()` call lands. -/
def delStep (s : CState) : CState :=
  { s with m := deleteOp s.m }

/-- Top of the loop: `if aborting && !m.lIsActive() { return }`; then in
NAT-PMP mode proceed to the attempt, while in UPnP mode consult the
SSDP registry first — with no services known, switch back to NAT-PMP
and restart the iteration (`continue`). -/
def topStep (s : CState) (svc : Bool) : CState :=
  if s.aborting = true ∧ isActive s.m s.now = false then
    { s with pc := Pc.dead }
  else
    match s.mode with
    | Mode.natpmp => { s with pc := Pc.attemptNat }
    | Mode.upnp =>
      if svc then { s with pc := Pc.attemptUpnp }
      else { s with mode := Mode.natpmp }

/-- The NAT-PMP attempt returns: `ok = m.tryNATPMP(gwa, aborting)`.
On success the next wakeup is half the (just updated) lifetime.  On
failure, if the SSDP registry currently knows a WANIPConnection:1
service (`svc`), switch mode to UPnP and restart the iteration
(`continue`) — without touching the backoff; otherwise fall through to
the post-attempt checks. -/
def natStep (s : CState) (gws : List NatGwOutcome) (svc : Bool) : CState :=
  let p := tryNATPMP s.aborting s.now gws s.m
  if p.1 then
    { s with m := p.2, ok := true, d := p.2.lifetime / 2, pc := Pc.postCheck }
  else if svc then
    { s with m := p.2, ok := false, mode := Mode.upnp, pc := Pc.top }
  else
    { s with m := p.2, ok := false, pc := Pc.postCheck }

/-- The UPnP attempt returns: `ok = m.tryUPnP(svcs, aborting)`; the
next wakeup is one hour. -/
def upnpStep (s : CState) (svcs : List UpnpOutcome) : CState :=
  let p := tryUPnP s.aborting s.now svcs s.m
  { s with m := p.2, ok := p.1, d := oneHour, pc := Pc.postCheck }

/-- After the attempt: when tearing down, `setInactive` (which clears
the expiry and notifies) and return.  Otherwise reset the backoff on
success, or take the next backoff delay on failure — a zero delay means
the tries are exhausted: `setInactive` and return.  Then `notify` and
enter the `select`. -/
def postStep (s : CState) : CState :=
  if s.aborting then
    { s with m := setInactive s.m s.now, pc := Pc.dead }
  else if s.ok then
    { s with m := notifyUpd { s.m with backoff := s.m.backoff.reset } s.now,
             pc := Pc.selectWait }
  else
    let p := s.m.backoff.nextDelay
    let m1 := { s.m with backoff := p.2 }
    if p.1 = 0 then
      { s with m := setInactive m1 s.now, pc := Pc.dead }
    else
      { s with m := notifyUpd m1 s.now, d := p.1, pc := Pc.selectWait }

/-- The `select` resolves through the `abortChan` branch (available
only once the channel is closed): set the `aborting` local. -/
def wakeAbortStep (s : CState) : CState :=
  { s with aborting := true, pc := Pc.top }

/-- The `select` resolves through the `time.After(d)` branch: the
renewal timer fires after `d`. -/
def wakeTimerStep (s : CState) : CState :=
  { s with now := s.now + s.d, pc := Pc.top }

/-- Labels for controller transitions: the oracle inputs each step
consumes. -/
inductive Ev where
  | tick (t : Nat)
  | delete
  | dispatch (svc : Bool)
  | natDone (gws : List NatGwOutcome) (svc : Bool)
  | upnpDone (svcs : List UpnpOutcome)
  | post
  | wake (abortBranch : Bool)
deriving DecidableEq, Repr

/-- The controller's small-step transition relation.  `svc` carries
whether `ssdp.GetServicesByType(upnpWANIPConnectionURN)` is currently
non-empty; `gws` / `svcs` carry the per-gateway / per-service wire
outcomes of one `tryNATPMP` / `tryUPnP` call. -/
inductive Step : CState → Ev → CState → Prop where
  | tick (s : CState) (t : Nat) (h : s.now ≤ t) :
      Step s (Ev.tick t) (tickStep s t)
  | del (s : CState) :
      Step s Ev.delete (delStep s)
  | dispatch (s : CState) (svc : Bool) (h : s.pc = Pc.top) :
      Step s (Ev.dispatch svc) (topStep s svc)
  | natDone (s : CState) (gws : List NatGwOutcome) (svc : Bool)
      (h : s.pc = Pc.attemptNat) :
      Step s (Ev.natDone gws svc) (natStep s gws svc)
  | upnpDone (s : CState) (svcs : List UpnpOutcome)
      (h : s.pc = Pc.attemptUpnp) (hne : svcs ≠ []) :
      Step s (Ev.upnpDone svcs) (upnpStep s svcs)
  | post (s : CState) (h : s.pc = Pc.postCheck) :
      Step s Ev.post (postStep s)
  | wakeAbort (s : CState) (h : s.pc = Pc.selectWait)
      (ha : s.m.aborted = true) :
      Step s (Ev.wake true) (wakeAbortStep s)
  | wakeTimer (s : CState) (h : s.pc = Pc.selectWait) :
      Step s (Ev.wake false) (wakeTimerStep s)

/-- Zero or more controller steps. -/
def Reaches (s s' : CState) : Prop :=
  Relation.ReflTransGen (fun a b => ∃ e, Step a e b) s s'

/-! ## Control-flow skeleton of `upnp.Map` / `upnp.Unmap` /
`upnp.GetExternalAddr` (package `upnp`)

Each operation first calls `getWANIPControlURL`, whose result is a
`(wurl, err)` pair — every error path yields a nil `wurl`, and a
description that contains no WANIPConnection:1 service with a valid
control URL yields `(nil, nil)`.  The remaining wire interactions are
outcome oracles. -/

/-- The `(wurl, err)` pair returned by `getWANIPControlURL`. -/
structure WANIPResult where
  url : Option String
  errMsg : Option String
deriving DecidableEq, Repr

/-- Result of a `upnp` package call in a total embedding: a value, an
error returned to the caller, or a crash (nil-pointer dereference
panic). -/
inductive CallResult (α : Type) where
  | ok (a : α)
  | err (e : String)
  | crash
deriving DecidableEq, Repr

/-- `upnp.Map`: the error of `getWANIPControlURL` is overwritten (never
checked); `determineSelfIP(wurl)` dereferences `wurl`, so a nil control
URL crashes.  Otherwise: a zero requested external port is replaced by
a random port in [1025, 65000); then the self-IP probe and the
`AddPortMapping` SOAP round-trip can each fail; on success the chosen
external port is returned. -/
def upnpMapGo (w : WANIPResult) (externalPort randPort : Nat)
    (selfIP : Except String String) (soap : Except String Unit) : CallResult Nat :=
  match w.url with
  | none => CallResult.crash
  | some _ =>
    let ep := if externalPort = 0 then randPort else externalPort
    match selfIP with
    | Except.error e => CallResult.err e
    | Except.ok _ =>
      match soap with
      | Except.error e => CallResult.err e
      | Except.ok _ => CallResult.ok ep

/-- `upnp.Unmap`: the error of `getWANIPControlURL` is discarded;
`wurl.String()` dereferences a nil control URL, so it crashes.
Otherwise the `DeletePortMapping` SOAP round-trip decides the result. -/
def upnpUnmapGo (w : WANIPResult) (soap : Except String Unit) : CallResult Unit :=
  match w.url with
  | none => CallResult.crash
  | some _ =>
    match soap with
    | Except.error e => CallResult.err e
    | Except.ok _ => CallResult.ok ()

/-- `upnp.GetExternalAddr`: the error of `getWANIPControlURL` is
discarded; `wurl.String()` dereferences a nil control URL, so it
crashes.  Otherwise the SOAP round-trip, the XML decode and the IP
parse can each fail. -/
def upnpGetExternalAddrGo (w : WANIPResult) (soap : Except String Unit)
    (decoded : Except String String) (parsedIP : Option (List Nat)) :
    CallResult (List Nat) :=
  match w.url with
  | none => CallResult.crash
  | some _ =>
    match soap with
    | Except.error e => CallResult.err e
    | Except.ok _ =>
      match decoded with
      | Except.error e => CallResult.err e
      | Except.ok _ =>
        match parsedIP with
        | none => CallResult.err "Unable to parse IP address"
        | some ip => CallResult.ok ip

/-! ## Basic facts about the mapping object -/

/-- `JoinHostPort` never yields the empty string (it always contains a
colon). -/
theorem joinHostPort_ne_empty (h p : String) : joinHostPort h p ≠ "" := by
  unfold joinHostPort
  split <;> intro heq <;>
    · have hd := congrArg String.data heq
      simp at hd

/-- A concrete active mapping whose external IP was never learned
(`externalAddr` still `""`), as left by a NAT-PMP `Map` success whose
follow-up `GetExternalAddr` failed. -/
def c1State : MState :=
  { externalPort := 8080, lifetime := 7200, expireTime := some 100, aborted := false,
    externalAddr := "", prevValue := "", notifyPending := false,
    backoff := natpmpBackoff, closeCount := 0 }

/-- Claim C1, counterexample.  At time 50 the mapping `c1State` is
active with external port 8080 but an unknown external IP:
`ExternalAddr` returns the non-empty string `":8080"` even though the
external IP is not known (`externalAddr = ""`), refuting the §8 reading
that a non-empty result implies the external IP is known. -/
theorem externalAddr_port_without_ip :
    ExternalAddr c1State 50 = ":8080" ∧ ExternalAddr c1State 50 ≠ "" ∧
    c1State.externalAddr = "" ∧ isActive c1State 50 = true ∧
    c1State.externalPort ≠ 0 := by
  refine ⟨by decide, by decide, by decide, by decide, by decide⟩

/-- Claim C1, amended.  `ExternalAddr` is non-empty exactly when the
mapping is active (expiry set and in the future) and the external port
is nonzero; in that case it is `JoinHostPort` of the recorded address
and the decimal port, which is `":port"` when the external IP is
unknown; it is `""` whenever the mapping is inactive or the port is 0.
(The claim's further conjunct "externalIP known" does not hold — see
the counterexample.) -/
theorem externalAddr_characterization (m : MState) (now : Nat) :
    (ExternalAddr m now ≠ "" ↔ isActive m now = true ∧ m.externalPort ≠ 0) ∧
    (isActive m now = true → m.externalPort ≠ 0 →
      ExternalAddr m now = joinHostPort m.externalAddr (Nat.repr m.externalPort)) ∧
    (isActive m now = true → m.externalPort ≠ 0 → m.externalAddr = "" →
      ExternalAddr m now = ":" ++ Nat.repr m.externalPort) ∧
    ((isActive m now = false ∨ m.externalPort = 0) → ExternalAddr m now = "") := by
  by_cases hA : isActive m now <;> by_cases hP : m.externalPort = 0 <;>
    simp [ExternalAddr, hA, hP, joinHostPort_ne_empty] <;>
    intro hea <;> simp [joinHostPort, hea]

/-- Witness for `externalAddr_characterization` at `c1State`, time 50. -/
theorem externalAddr_characterization_witness :
    ExternalAddr c1State 50 = ":" ++ Nat.repr c1State.externalPort :=
  (externalAddr_characterization c1State 50).2.2.1 (by decide) (by decide) rfl

/-- Claim C8.  An entry is returned by `GetServicesByType` exactly when
its ST matches and `now - lastSeen < 3 * BroadcastInterval`; an entry
exactly at the boundary is excluded. -/
theorem ssdp_freshness_window (reg : List Service) (st : String) (now : Int)
    (v : Service) :
    (v ∈ GetServicesByType reg st now ↔
      v ∈ reg ∧ v.st = st ∧ now - v.lastSeen < 3 * broadcastInterval) ∧
    (v ∈ reg → v.st = st → now - v.lastSeen = 3 * broadcastInterval →
      v ∉ GetServicesByType reg st now) := by
  have h : v ∈ GetServicesByType reg st now ↔
      v ∈ reg ∧ v.st = st ∧ now - v.lastSeen < 3 * broadcastInterval := by
    simp only [GetServicesByType, List.mem_filter, Bool.and_eq_true, beq_iff_eq,
      decide_eq_true_eq, broadcastInterval]
    constructor
    · rintro ⟨h1, h2, h3⟩
      exact ⟨h1, h2, by omega⟩
    · rintro ⟨h1, h2, h3⟩
      exact ⟨h1, ⟨h2, by omega⟩⟩
  refine ⟨h, fun hm hst he hmem => ?_⟩
  have hlt := (h.mp hmem).2.2
  rw [broadcastInterval] at hlt he
  omega

/-- A registry entry last seen at time 100, queried at time 280 — the
exact boundary `now - lastSeen = 180`. -/
def svcBoundary : Service :=
  { usn := "uuid-w", st := "urn:schemas-upnp-org:service:WANIPConnection:1",
    location := "http://192.168.1.1:5000/rootDesc.xml", lastSeen := 100 }

/-- Witness for `ssdp_freshness_window`: the boundary entry is not
returned. -/
theorem ssdp_freshness_window_witness :
    svcBoundary ∉ GetServicesByType [svcBoundary]
      "urn:schemas-upnp-org:service:WANIPConnection:1" 280 :=
  (ssdp_freshness_window [svcBoundary]
      "urn:schemas-upnp-org:service:WANIPConnection:1" 280 svcBoundary).2
    (List.mem_singleton.mpr rfl) rfl (by decide)

/-- Claim C9.  `Delete` is idempotent: a second (or n-th, n ≥ 1) call
leaves the mapping state — including the count of `close(abortChan)`
calls — exactly as after the first, the channel is closed at most once
across all calls, and the aborted flag is set after any call. -/
theorem delete_idempotent (m : MState) (n : Nat) (h : 1 ≤ n) :
    deleteOp (deleteOp m) = deleteOp m ∧
    deleteOp^[n] m = deleteOp m ∧
    (deleteOp^[n] m).closeCount ≤ m.closeCount + 1 ∧
    (deleteOp m).aborted = true := by
  have hidem : ∀ m' : MState, deleteOp (deleteOp m') = deleteOp m' := by
    intro m'
    by_cases ha : m'.aborted
    · simp [deleteOp, ha]
    · simp [deleteOp, ha]
  have hab : (deleteOp m).aborted = true := by
    by_cases ha : m.aborted
    · simp [deleteOp, ha]
    · simp [deleteOp, ha]
  have hiter : ∀ k : Nat, deleteOp^[k + 1] m = deleteOp m := by
    intro k
    induction k with
    | zero => simp
    | succ k ih =>
      rw [Function.iterate_succ_apply', ih, hidem]
  obtain ⟨k, rfl⟩ : ∃ k, n = k + 1 := ⟨n - 1, by omega⟩
  refine ⟨hidem m, hiter k, ?_, hab⟩
  rw [hiter k]
  by_cases ha : m.aborted
  · simp [deleteOp, ha]
  · simp [deleteOp, ha]

/-- A freshly-constructed mapping (as built by `New` with external
port 0 and a 7200-unit lifetime, default backoff with no retry
limit). -/
def mInit : MState :=
  { externalPort := 0, lifetime := 7200, expireTime := none, aborted := false,
    externalAddr := "", prevValue := "", notifyPending := false,
    backoff := { maxTries := 0, initialDelay := 250, maxDelay := 64000,
                 maxDelayAfterTries := 8, currentTry := 0 },
    closeCount := 0 }

/-- Witness for `delete_idempotent` at `mInit`, n = 2. -/
theorem delete_idempotent_witness :
    deleteOp^[2] mInit = deleteOp mInit ∧ (deleteOp mInit).aborted = true := by
  obtain ⟨h1, h2, h3, h4⟩ := delete_idempotent mInit 2 (by decide)
  exact ⟨h2, h4⟩

/-- Claim C10.  When `getWANIPControlURL` yields a nil control URL —
because fetching or parsing the device description failed (`errMsg`
set) or because no WANIPConnection:1 service with a valid control URL
was found (`errMsg` nil) — all three of `upnp.Map`, `upnp.Unmap` and
`upnp.GetExternalAddr` crash on a nil-pointer dereference instead of
returning an error: the discarded `errMsg` never reaches the caller. -/
theorem upnp_nil_control_url_crash (w : WANIPResult) (h : w.url = none)
    (ep rp : Nat) (sip : Except String String) (soap : Except String Unit)
    (dec : Except String String) (pip : Option (List Nat)) :
    upnpMapGo w ep rp sip soap = CallResult.crash ∧
    upnpUnmapGo w soap = CallResult.crash ∧
    upnpGetExternalAddrGo w soap dec pip = CallResult.crash := by
  simp [upnpMapGo, upnpUnmapGo, upnpGetExternalAddrGo, h]

/-- A `getWANIPControlURL` result for a device whose description could
not be retrieved. -/
def wNil : WANIPResult :=
  { url := none,
    errMsg := some "non-200 status code when retrieving UPnP device description" }

/-- Witness for `upnp_nil_control_url_crash` at `wNil`. -/
theorem upnp_nil_control_url_crash_witness :
    upnpMapGo wNil 0 1025 (Except.ok "10.0.0.2") (Except.ok ()) = CallResult.crash ∧
    upnpUnmapGo wNil (Except.ok ()) = CallResult.crash ∧
    upnpGetExternalAddrGo wNil (Except.ok ()) (Except.ok "resp") none
      = CallResult.crash :=
  upnp_nil_control_url_crash wNil rfl 0 1025 (Except.ok "10.0.0.2") (Except.ok ())
    (Except.ok "resp") none

/-! ## NAT-PMP transaction layer -/

/-- Claim C5, counterexample.  A datagram from the wrong source IP
followed by a valid response, against gateway 7, opcode 0, from a fresh
transaction: the discard makes the loop consume a second `NextDelay`
(250 then 500), install a second deadline window, and re-send the
request (2 sends) — refuting "continues reading within the same
deadline window, no new backoff delay is consumed and the request is
not re-sent". -/
def c5Events : List RecvEv :=
  [RecvEv.datagram { ip := 99, port := 5351 } [0, 128, 0, 0],
   RecvEv.datagram { ip := 7, port := 5351 } [0, 128, 0, 0, 9, 9, 9, 9]]

/-- Claim C5, counterexample (see `c5Events`). -/
theorem discard_consumes_delay_and_resends :
    (makeRequest 7 0 c5Events).1 = Except.ok [9, 9, 9, 9] ∧
    (makeRequest 7 0 c5Events).2.sends = 2 ∧
    (makeRequest 7 0 c5Events).2.delayCalls = 2 ∧
    (makeRequest 7 0 c5Events).2.deadlines = [250, 500] := by
  refine ⟨by decide, by decide, by decide, by decide⟩

/-- Claim C5, amended.  The client discards any datagram whose source
differs from `(gateway, 5351)`, whose length is under 4, whose version
byte is nonzero or whose opcode byte is not `0x80 ||| opcode` — the
transaction continues and is not failed by the datagram — but the
discard `continue`s to the top of the retry loop: it consumes the next
backoff delay as a fresh deadline window and re-sends the request
before reading again (one extra `NextDelay` call, one extra send). -/
theorem discard_conditions_and_restart (gw opcode : Nat) (src : Addr)
    (data : List Nat) (evs : List RecvEv) (st : MRState)
    (hbad : src.ip ≠ gw ∨ src.port ≠ hostToGatewayPort ∨ data.length < 4 ∨
            data.getD 0 0 ≠ 0 ∨ data.getD 1 0 ≠ (128 ||| opcode))
    (hd : (st.b.nextDelay).1 ≠ 0) :
    makeRequestLoop gw opcode (RecvEv.datagram src data :: evs) st =
      makeRequestLoop gw opcode evs
        { b := (st.b.nextDelay).2, sends := st.sends + 1,
          delayCalls := st.delayCalls + 1,
          deadlines := st.deadlines ++ [(st.b.nextDelay).1] } := by
  have hst : attemptStart st =
      { b := (st.b.nextDelay).2, sends := st.sends + 1,
        delayCalls := st.delayCalls + 1,
        deadlines := st.deadlines ++ [(st.b.nextDelay).1] } := by
    simp [attemptStart, hd]
  rw [makeRequestLoop, if_neg hd, hst]
  dsimp only
  split_ifs with h1 h2 h3 h4
  · rfl
  · rfl
  · rfl
  all_goals
    exfalso
    rcases hbad with h | h | h | h | h
    · exact h1 (Or.inl h)
    · exact h1 (Or.inr h)
    · exact h2 h
    · exact h3 (Or.inl h)
    · exact h3 (Or.inr h)

/-- The fresh per-transaction state `makeRequest` starts from. -/
def mr0 : MRState :=
  { b := natpmpBackoff.reset, sends := 0, delayCalls := 0, deadlines := [] }

/-- Witness for `discard_conditions_and_restart`: one wrong-source
datagram against gateway 7 from a fresh transaction state. -/
theorem discard_conditions_and_restart_witness :
    makeRequestLoop 7 0 (RecvEv.datagram { ip := 99, port := 5351 } [0, 128, 0, 0] :: []) mr0 =
      makeRequestLoop 7 0 []
        { b := (mr0.b.nextDelay).2, sends := mr0.sends + 1,
          delayCalls := mr0.delayCalls + 1,
          deadlines := mr0.deadlines ++ [(mr0.b.nextDelay).1] } :=
  discard_conditions_and_restart 7 0 { ip := 99, port := 5351 } [0, 128, 0, 0] [] mr0
    (Or.inl (by decide)) (by decide)

/-- Claim C6.  The NAT-PMP transaction layer's backoff is configured
with `MaxTries 9, InitialDelay 250 ms, MaxDelay 64000 ms,
MaxDelayAfterTries 8`; after a `Reset` its `NextDelay` sequence is
250, 500, 1000, 2000, 4000, 8000, 16000, 32000, 64000 ms and then the
zero sentinel; and a transaction against a black-hole gateway (nine
receive timeouts) uses exactly those nine values as the per-attempt
receive deadlines, sends nine requests, calls `NextDelay` ten times and
fails with the timeout error. -/
theorem natpmp_backoff_schedule :
    natpmpBackoff = { maxTries := 9, initialDelay := 250, maxDelay := 64000,
                      maxDelayAfterTries := 8, currentTry := 0 } ∧
    Backoff.delays (natpmpBackoff.reset) 10 =
      [250, 500, 1000, 2000, 4000, 8000, 16000, 32000, 64000, 0] ∧
    (makeRequest 7 0 (List.replicate 9 RecvEv.timeout)).1 = Except.error MRErr.timeout ∧
    (makeRequest 7 0 (List.replicate 9 RecvEv.timeout)).2.deadlines =
      [250, 500, 1000, 2000, 4000, 8000, 16000, 32000, 64000] ∧
    (makeRequest 7 0 (List.replicate 9 RecvEv.timeout)).2.sends = 9 ∧
    (makeRequest 7 0 (List.replicate 9 RecvEv.timeout)).2.delayCalls = 10 := by
  refine ⟨rfl, by decide, by decide, by decide, by decide, by decide⟩

/-- A wire exchange whose reply passes every header check but carries
an empty payload (a 4-byte datagram: version 0, opcode `0x80`, result
code 0). -/
def c7Events : List RecvEv := [RecvEv.datagram { ip := 7, port := 5351 } [0, 128, 0, 0]]

/-- Claim C7.  On the failing input `c7Events` the wire exchange
succeeds with an empty payload, and `GetExternalAddr` then evaluates
the slice `r[4:8]` out of range (modelled as `sliceOutOfRange`) instead
of returning the short-response error that `Map`'s length check — shown
alongside on the same payload — would produce.  In Go the out-of-range
slice panics, or silently returns stale buffer bytes when the read
buffer's capacity suffices. -/
theorem getExternalAddr_short_payload_behaviour :
    (makeRequest 7 0 c7Events).1 = Except.ok [] ∧
    (natpmpGetExternalAddr 7 c7Events).1 = NPResult.sliceOutOfRange ∧
    (natpmpGetExternalAddr 7 c7Events).1 ≠ NPResult.err MRErr.shortResponse ∧
    natpmpMapParse [] = Except.error MRErr.shortResponse := by
  refine ⟨by decide, by decide, by decide, by decide⟩

/-! ## Controller invariants -/

theorem notifyUpd_expireTime (m : MState) (now : Nat) :
    (notifyUpd m now).expireTime = m.expireTime := by
  unfold notifyUpd
  dsimp only
  split
  · rfl
  · rfl

theorem setInactive_expireTime (m : MState) (now : Nat) :
    (setInactive m now).expireTime = none := by
  unfold setInactive
  rw [notifyUpd_expireTime]

theorem deleteOp_expireTime (m : MState) :
    (deleteOp m).expireTime = m.expireTime := by
  unfold deleteOp
  split
  · rfl
  · rfl

theorem isActive_expireTime_none (m : MState) (now : Nat) (h : m.expireTime = none) :
    isActive m now = false := by
  unfold isActive
  rw [h]

theorem isActive_later (m m' : MState) (now now' : Nat)
    (he : m'.expireTime = m.expireTime)
    (h : isActive m now = false) (hn : now ≤ now') : isActive m' now' = false := by
  unfold isActive at h ⊢
  rw [he]
  cases hx : m.expireTime with
  | none => rfl
  | some t =>
    rw [hx] at h
    simp at h ⊢
    omega

theorem inactive_externalAddr (m : MState) (now : Nat) (h : isActive m now = false) :
    ExternalAddr m now = "" := by
  simp [ExternalAddr, h]

/-- Every transition that makes the controller return leaves the
mapping inactive at that moment: the top-of-loop return fires only when
already inactive, and both `postStep` return paths clear the expiry via
`setInactive`. -/
theorem step_into_dead_inactive (s : CState) (e : Ev) (s' : CState)
    (hs : Step s e s') (h1 : s.pc ≠ Pc.dead) (h2 : s'.pc = Pc.dead) :
    isActive s'.m s'.now = false := by
  cases hs with
  | tick t ht => exact absurd h2 h1
  | del => exact absurd h2 h1
  | dispatch svc h =>
    by_cases hc : s.aborting = true ∧ isActive s.m s.now = false
    · simp only [topStep, if_pos hc]
      exact hc.2
    · exfalso
      rw [topStep, if_neg hc] at h2
      cases hm : s.mode with
      | natpmp => rw [hm] at h2; simp at h2
      | upnp =>
        rw [hm] at h2
        dsimp at h2
        by_cases hsvc : svc = true
        · rw [if_pos hsvc] at h2; simp at h2
        · rw [if_neg hsvc] at h2
          dsimp at h2
          rw [h] at h2
          simp at h2
  | natDone gws svc h =>
    exfalso
    rw [natStep] at h2
    by_cases hp : (tryNATPMP s.aborting s.now gws s.m).1 = true
    · rw [if_pos hp] at h2; simp at h2
    · rw [if_neg hp] at h2
      by_cases hsvc : svc = true
      · rw [if_pos hsvc] at h2; simp at h2
      · rw [if_neg hsvc] at h2; simp at h2
  | upnpDone svcs h hne =>
    exfalso
    rw [upnpStep] at h2
    simp at h2
  | post h =>
    rw [postStep] at h2 ⊢
    by_cases hab : s.aborting = true
    · rw [if_pos hab] at h2 ⊢
      exact isActive_expireTime_none _ _ (setInactive_expireTime _ _)
    · rw [if_neg hab] at h2 ⊢
      by_cases hok : s.ok = true
      · rw [if_pos hok] at h2; simp at h2
      · rw [if_neg hok] at h2 ⊢
        by_cases hz : (s.m.backoff.nextDelay).1 = 0
        · dsimp only at h2 ⊢
          rw [if_pos hz] at h2 ⊢
          exact isActive_expireTime_none _ _ (setInactive_expireTime _ _)
        · dsimp only at h2
          rw [if_neg hz] at h2
          simp at h2
  | wakeAbort h ha =>
    exfalso
    rw [wakeAbortStep] at h2
    simp at h2
  | wakeTimer h =>
    exfalso
    rw [wakeTimerStep] at h2
    simp at h2

/-- From a dead controller only the environment steps (time, further
`Delete` calls) are possible; they keep the controller dead, preserve
the expiry and advance time monotonically. -/
theorem step_from_dead (s : CState) (e : Ev) (s' : CState)
    (hs : Step s e s') (hd : s.pc = Pc.dead) :
    s'.pc = Pc.dead ∧ s'.m.expireTime = s.m.expireTime ∧ s.now ≤ s'.now := by
  cases hs with
  | tick t ht => exact ⟨hd, rfl, ht⟩
  | del => exact ⟨hd, deleteOp_expireTime _, Nat.le_refl _⟩
  | dispatch svc h => rw [hd] at h; simp at h
  | natDone gws svc h => rw [hd] at h; simp at h
  | upnpDone svcs h hne => rw [hd] at h; simp at h
  | post h => rw [hd] at h; simp at h
  | wakeAbort h ha => rw [hd] at h; simp at h
  | wakeTimer h => rw [hd] at h; simp at h

/-- Claim C2's first controller step: the loop dispatch with a fresh
mapping proceeds to a NAT-PMP attempt. -/
def c2s0 : CState :=
  { m := mInit, now := 1000, pc := Pc.top, aborting := false, mode := Mode.natpmp,
    ok := false, d := 0 }

def c2s1 : CState := topStep c2s0 false

def c2s2 : CState := delStep c2s1

def c2s3 : CState := natStep c2s2 [NatGwOutcome.mapOk 8080 7200 (some "1.2.3.4")] false

/-- Claim C2, counterexample.  `Delete()` lands while the first NAT-PMP
attempt is in flight (after the dispatch, before the attempt returns);
the attempt then succeeds and records a fresh expiry: `ExternalAddr`
transitions from `""` to `"1.2.3.4:8080"` in a step taken after the
abort flag was set, so the mapping does re-activate after `Delete()`. -/
theorem delete_inflight_reactivation :
    Step c2s0 (Ev.dispatch false) c2s1 ∧
    Step c2s1 Ev.delete c2s2 ∧
    Step c2s2 (Ev.natDone [NatGwOutcome.mapOk 8080 7200 (some "1.2.3.4")] false) c2s3 ∧
    c2s2.m.aborted = true ∧
    ExternalAddr c2s2.m c2s2.now = "" ∧
    c2s3.m.aborted = true ∧
    ExternalAddr c2s3.m c2s3.now = "1.2.3.4:8080" ∧
    isActive c2s3.m c2s3.now = true := by
  refine ⟨Step.dispatch c2s0 false rfl, Step.del c2s1,
    Step.natDone c2s2 _ false (by decide), by decide, by decide, by decide,
    by decide, by decide⟩

/-- Claim C2, amended.  An attempt in flight when `Delete()` is called
may still re-activate the mapping (see the counterexample); what holds
is: every transition into the returned (`dead`) state leaves the
mapping inactive, and from a dead, inactive controller state every
reachable state is still dead and observes `ExternalAddr() = ""` —
the mapping never re-activates once the controller has returned. -/
theorem dead_controller_stays_inactive :
    (∀ s e s', Step s e s' → s.pc ≠ Pc.dead → s'.pc = Pc.dead →
      isActive s'.m s'.now = false) ∧
    (∀ s s', s.pc = Pc.dead → isActive s.m s.now = false → Reaches s s' →
      s'.pc = Pc.dead ∧ ExternalAddr s'.m s'.now = "") := by
  constructor
  · exact fun s e s' hs h1 h2 => step_into_dead_inactive s e s' hs h1 h2
  · intro s s' hpc hina hr
    have key : s'.pc = Pc.dead ∧ isActive s'.m s'.now = false := by
      induction hr with
      | refl => exact ⟨hpc, hina⟩
      | tail hab hbc ih =>
        obtain ⟨e, hstep⟩ := hbc
        obtain ⟨hbpc, hbin⟩ := ih
        obtain ⟨hcpc, hcexp, hcnow⟩ := step_from_dead _ e _ hstep hbpc
        exact ⟨hcpc, isActive_later _ _ _ _ hcexp hbin hcnow⟩
    exact ⟨key.1, inactive_externalAddr _ _ key.2⟩

/-- A controller state that has returned after teardown of a
never-activated mapping. -/
def cDead : CState :=
  { m := mInit, now := 5, pc := Pc.dead, aborting := true, mode := Mode.natpmp,
    ok := false, d := 0 }

/-- Witness for `dead_controller_stays_inactive` at `cDead` and the
empty trace. -/
theorem dead_controller_stays_inactive_witness :
    cDead.pc = Pc.dead ∧ ExternalAddr cDead.m cDead.now = "" :=
  dead_controller_stays_inactive.2 cDead cDead rfl (by decide)
    Relation.ReflTransGen.refl

/-- A `tryNATPMPGW` call returns false only when its `natpmp.Map` call
failed (the no-op and success paths always return true). -/
theorem tryNATPMPGW_false (destroy : Bool) (now : Nat) (m : MState) (o : NatGwOutcome)
    (h : (tryNATPMPGW destroy now m o).1 = false) : o = NatGwOutcome.mapFail := by
  by_cases h1 : destroy = true ∧ isActive m now = false
  · simp [tryNATPMPGW, h1] at h
  · cases o with
    | mapFail => rfl
    | mapOk p l ip =>
      by_cases h2 : (if destroy = true then 0 else m.lifetime) = 0
      · simp [tryNATPMPGW, h1, h2] at h
      · simp [tryNATPMPGW, h1, h2] at h

/-- `tryNATPMP` returns false only when every gateway's exchange
failed. -/
theorem tryNATPMP_false_all (destroy : Bool) (now : Nat) (gws : List NatGwOutcome)
    (m : MState) (h : (tryNATPMP destroy now gws m).1 = false) :
    ∀ o ∈ gws, o = NatGwOutcome.mapFail := by
  induction gws generalizing m with
  | nil =>
    intro o ho
    cases ho
  | cons o os ih =>
    intro x hx
    simp only [tryNATPMP] at h
    by_cases hp : (tryNATPMPGW destroy now m o).1 = true
    · rw [if_pos hp] at h
      rw [h] at hp
      cases hp
    · rw [if_neg hp] at h
      rcases List.mem_cons.mp hx with rfl | hxs
      · exact tryNATPMPGW_false destroy now m x (Bool.not_eq_true _ ▸ hp)
      · exact ih _ h x hxs

theorem tryNATPMPGW_backoff (destroy : Bool) (now : Nat) (m : MState)
    (o : NatGwOutcome) : ((tryNATPMPGW destroy now m o).2).backoff = m.backoff := by
  by_cases h1 : destroy = true ∧ isActive m now = false
  · simp [tryNATPMPGW, h1]
  · cases o with
    | mapFail => simp [tryNATPMPGW, h1]
    | mapOk p l ip =>
      by_cases h2 : (if destroy = true then 0 else m.lifetime) = 0
      · simp [tryNATPMPGW, h1, h2]
      · cases ip with
        | none => simp [tryNATPMPGW, h1, h2]
        | some str => simp [tryNATPMPGW, h1, h2]

/-- A NAT-PMP attempt never touches the controller's cross-attempt
backoff. -/
theorem tryNATPMP_backoff (destroy : Bool) (now : Nat) (gws : List NatGwOutcome)
    (m : MState) : ((tryNATPMP destroy now gws m).2).backoff = m.backoff := by
  induction gws generalizing m with
  | nil => rfl
  | cons o os ih =>
    simp only [tryNATPMP]
    by_cases hp : (tryNATPMPGW destroy now m o).1 = true
    · rw [if_pos hp]
      exact tryNATPMPGW_backoff destroy now m o
    · rw [if_neg hp, ih]
      exact tryNATPMPGW_backoff destroy now m o

/-- Claim C3.  A transition from NAT-PMP mode into UPnP mode happens
only at the return of a NAT-PMP attempt that failed on every gateway
while the SSDP registry currently knows a WANIPConnection:1 service
(the event's `svc` flag is true); the switch restarts the iteration at
the top of the loop with the backoff state untouched (`NextDelay` is
not called).  Symmetrically, a top-of-loop dispatch in UPnP mode that
finds no services (and does not take the teardown return) switches back
to NAT-PMP and restarts the iteration, changing nothing else. -/
theorem mode_switch_discipline (s : CState) (e : Ev) (s' : CState) (hs : Step s e s') :
    (s.mode = Mode.natpmp → s'.mode = Mode.upnp →
      ∃ gws, e = Ev.natDone gws true ∧
        (tryNATPMP s.aborting s.now gws s.m).1 = false ∧
        (∀ o ∈ gws, o = NatGwOutcome.mapFail) ∧
        s'.m.backoff = s.m.backoff ∧ s'.pc = Pc.top) ∧
    (∀ svc, e = Ev.dispatch svc → s.mode = Mode.upnp → svc = false →
      ¬(s.aborting = true ∧ isActive s.m s.now = false) →
      s'.mode = Mode.natpmp ∧ s'.pc = Pc.top ∧ s'.m = s.m ∧ s'.now = s.now) := by
  cases hs with
  | tick t ht =>
    constructor
    · intro h1 h2
      rw [tickStep] at h2
      dsimp at h2
      rw [h1] at h2
      cases h2
    · intro svc he
      cases he
  | del =>
    constructor
    · intro h1 h2
      rw [delStep] at h2
      dsimp at h2
      rw [h1] at h2
      cases h2
    · intro svc he
      cases he
  | dispatch svc h =>
    constructor
    · intro h1 h2
      exfalso
      rw [topStep] at h2
      split at h2
      · dsimp at h2
        rw [h1] at h2
        cases h2
      · rw [h1] at h2
        dsimp at h2
        cases h2
    · intro svc2 he hm hsvc hna
      injection he with hesvc
      subst hesvc
      subst hsvc
      rw [topStep, if_neg hna, hm]
      dsimp
      exact ⟨rfl, h, rfl, rfl⟩
  | natDone gws svc h =>
    constructor
    · intro h1 h2
      rw [natStep] at h2
      by_cases hp : (tryNATPMP s.aborting s.now gws s.m).1 = true
      · exfalso
        rw [if_pos hp] at h2
        dsimp at h2
        rw [h1] at h2
        cases h2
      · rw [if_neg hp] at h2
        by_cases hsvc : svc = true
        · subst hsvc
          refine ⟨gws, rfl, Bool.not_eq_true _ ▸ hp, ?_, ?_, ?_⟩
          · exact tryNATPMP_false_all _ _ _ _ (Bool.not_eq_true _ ▸ hp)
          · rw [natStep, if_neg hp, if_pos rfl]
            exact tryNATPMP_backoff _ _ _ _
          · rw [natStep, if_neg hp, if_pos rfl]
        · exfalso
          rw [if_neg hsvc] at h2
          dsimp at h2
          rw [h1] at h2
          cases h2
    · intro svc2 he
      cases he
  | upnpDone svcs h hne =>
    constructor
    · intro h1 h2
      exfalso
      rw [upnpStep] at h2
      dsimp at h2
      rw [h1] at h2
      cases h2
    · intro svc2 he
      cases he
  | post h =>
    constructor
    · intro h1 h2
      exfalso
      rw [postStep] at h2
      split at h2
      · dsimp at h2
        rw [h1] at h2
        cases h2
      · split at h2
        · dsimp at h2
          rw [h1] at h2
          cases h2
        · dsimp only at h2
          split at h2
          · dsimp at h2
            rw [h1] at h2
            cases h2
          · dsimp at h2
            rw [h1] at h2
            cases h2
    · intro svc2 he
      cases he
  | wakeAbort h ha =>
    constructor
    · intro h1 h2
      rw [wakeAbortStep] at h2
      dsimp at h2
      rw [h1] at h2
      cases h2
    · intro svc2 he
      cases he
  | wakeTimer h =>
    constructor
    · intro h1 h2
      rw [wakeTimerStep] at h2
      dsimp at h2
      rw [h1] at h2
      cases h2
    · intro svc2 he
      cases he

/-- A controller blocked in a NAT-PMP attempt for a fresh mapping. -/
def c3s0 : CState :=
  { m := mInit, now := 1000, pc := Pc.attemptNat, aborting := false,
    mode := Mode.natpmp, ok := false, d := 0 }

/-- Witness for `mode_switch_discipline`: the attempt-failed,
services-known step from `c3s0` enters UPnP mode at the top of the loop
with the backoff untouched. -/
theorem mode_switch_discipline_witness :
    (natStep c3s0 [NatGwOutcome.mapFail] true).mode = Mode.upnp ∧
    (natStep c3s0 [NatGwOutcome.mapFail] true).m.backoff = c3s0.m.backoff ∧
    (natStep c3s0 [NatGwOutcome.mapFail] true).pc = Pc.top := by
  obtain ⟨gws, hev, hfail, hall, hb, hpc⟩ :=
    (mode_switch_discipline c3s0 (Ev.natDone [NatGwOutcome.mapFail] true)
      (natStep c3s0 [NatGwOutcome.mapFail] true)
      (Step.natDone c3s0 [NatGwOutcome.mapFail] true rfl)).1 rfl (by decide)
  exact ⟨by decide, hb, hpc⟩

/-- Claim C4, amended.  Once the controller's `aborting` flag is set:
a top-of-loop dispatch with the mapping already inactive returns
immediately (mapping untouched); a post-attempt check clears the
expiry, runs the notification routine and returns — regardless of
whether the teardown attempt succeeded, so a failed attempt is not
retried through the same backend; and an attempt step performs exactly
one backend call per iteration, going to the post-attempt check —
except that a NAT-PMP teardown failure with WANIPConnection:1 services
currently known switches to UPnP and restarts the iteration, where the
teardown is attempted once more (the behaviour the original claim
rules out; see the counterexample). -/
theorem teardown_iteration_behaviour (s : CState) :
    (∀ svc s', s.pc = Pc.top → s.aborting = true → isActive s.m s.now = false →
      Step s (Ev.dispatch svc) s' → s'.pc = Pc.dead ∧ s'.m = s.m) ∧
    (∀ s', s.pc = Pc.postCheck → s.aborting = true → Step s Ev.post s' →
      s'.pc = Pc.dead ∧ s'.m = setInactive s.m s.now ∧ s'.m.expireTime = none) ∧
    (∀ gws svc s', s.aborting = true → Step s (Ev.natDone gws svc) s' →
      ((tryNATPMP true s.now gws s.m).1 = false ∧ svc = true →
        s'.pc = Pc.top ∧ s'.mode = Mode.upnp) ∧
      ((tryNATPMP true s.now gws s.m).1 = true ∨ svc = false →
        s'.pc = Pc.postCheck)) ∧
    (∀ svcs s', Step s (Ev.upnpDone svcs) s' → s'.pc = Pc.postCheck) := by
  refine ⟨?_, ?_, ?_, ?_⟩
  · intro svc s' h1 h2 h3 hst
    cases hst with
    | dispatch _ h =>
      rw [topStep, if_pos ⟨h2, h3⟩]
      exact ⟨rfl, rfl⟩
  · intro s' h1 h2 hst
    cases hst with
    | post h =>
      rw [postStep, if_pos h2]
      exact ⟨rfl, rfl, setInactive_expireTime _ _⟩
  · intro gws svc s' h2 hst
    cases hst with
    | natDone _ _ h =>
      rw [natStep, h2]
      constructor
      · rintro ⟨hfail, hsvc⟩
        subst hsvc
        rw [if_neg (by rw [hfail]; exact Bool.false_ne_true), if_pos rfl]
        exact ⟨rfl, rfl⟩
      · rintro (hok | hsvc)
        · rw [if_pos hok]
        · subst hsvc
          by_cases hp : (tryNATPMP true s.now gws s.m).1 = true
          · rw [if_pos hp]
          · rw [if_neg hp, if_neg Bool.false_ne_true]
  · intro svcs s' hst
    cases hst with
    | upnpDone _ h hne => rw [upnpStep]

/-- An active mapping whose `Delete()` has been observed by the
controller. -/
def mAct : MState :=
  { externalPort := 8080, lifetime := 7200, expireTime := some 10000, aborted := true,
    externalAddr := "9.9.9.9", prevValue := "9.9.9.9:8080", notifyPending := false,
    backoff := { maxTries := 0, initialDelay := 250, maxDelay := 64000,
                 maxDelayAfterTries := 8, currentTry := 0 },
    closeCount := 1 }

def c4s0 : CState :=
  { m := mAct, now := 5000, pc := Pc.top, aborting := true, mode := Mode.natpmp,
    ok := true, d := 3600 }

def c4s1 : CState := topStep c4s0 true

def c4s2 : CState := natStep c4s1 [NatGwOutcome.mapFail] true

def c4s3 : CState := topStep c4s2 true

def c4s4 : CState := upnpStep c4s3 [{ ok := true, extPort := 0, extIP := none }]

/-- Claim C4, counterexample.  A tearing-down iteration whose NAT-PMP
teardown fails on every gateway while the SSDP registry knows a
service: the controller does not mark the mapping inactive and return —
it keeps the expiry, switches to UPnP mode, restarts the iteration and
performs a second teardown attempt through `upnp.Unmap`, refuting "does
not retry on teardown failure, and then marks the mapping inactive ...
and the controller task returns". -/
theorem teardown_retry_via_upnp :
    Step c4s0 (Ev.dispatch true) c4s1 ∧ c4s1.pc = Pc.attemptNat ∧
    Step c4s1 (Ev.natDone [NatGwOutcome.mapFail] true) c4s2 ∧
    c4s1.aborting = true ∧ isActive c4s1.m c4s1.now = true ∧
    (tryNATPMP true c4s1.now [NatGwOutcome.mapFail] c4s1.m).1 = false ∧
    c4s2.pc = Pc.top ∧ c4s2.mode = Mode.upnp ∧ c4s2.m.expireTime = some 10000 ∧
    Step c4s2 (Ev.dispatch true) c4s3 ∧ c4s3.pc = Pc.attemptUpnp ∧
    c4s3.aborting = true ∧
    Step c4s3 (Ev.upnpDone [{ ok := true, extPort := 0, extIP := none }]) c4s4 := by
  refine ⟨Step.dispatch c4s0 true rfl, by decide,
    Step.natDone c4s1 _ true (by decide), by decide, by decide, by decide,
    by decide, by decide, by decide, Step.dispatch c4s2 true (by decide),
    by decide, by decide, Step.upnpDone c4s3 _ (by decide) (by decide)⟩

/-- A tearing-down controller at the post-attempt check. -/
def c4w : CState :=
  { m := mAct, now := 5000, pc := Pc.postCheck, aborting := true, mode := Mode.natpmp,
    ok := false, d := 0 }

/-- Witness for `teardown_iteration_behaviour` at `c4w`: the
post-attempt check of a tearing-down iteration returns with the expiry
cleared. -/
theorem teardown_iteration_behaviour_witness :
    (postStep c4w).pc = Pc.dead ∧ (postStep c4w).m.expireTime = none := by
  obtain ⟨h1, h2, h3⟩ :=
    (teardown_iteration_behaviour c4w).2.1 (postStep c4w) rfl rfl (Step.post c4w rfl)
  exact ⟨h1, h3⟩

end Portmap
